import Mathlib

/-!
Verification of the cluster-api-provider-ibmcloud resource-provisioning scopes.

The Go code under `cloud/scope` is embedded shallowly: every remote SDK
operation the scope code can invoke is a field of an oracle structure
(`VPCCloud` for the vpcv1 client, `PowerVSCloud` for the Power VS client and
the Kubernetes secret reader), and each translated function returns its Go
result together with the list of remote calls it issued, in issue order.
Go `(value, error)` returns whose two components the code inspects
independently are modelled as `Option value × Option String`; SDK operations
for which the code relies on the exactly-one-of-value-or-error contract are
modelled as `Except String value`. A translated function that can
dereference a nil pointer returns an `Option`, `none` standing for the
runtime fault.
-/

/-- Result pair mirroring a Go `(value pointer, error)` return: the first
component is the possibly nil value, the second the possibly nil error
message. -/
abbrev GoRes (α : Type) : Type := Option α × Option String

/-- Error wrapping as performed by errors.Wrap / errors.Wrapf of
github.com/pkg/errors: the message is the annotation, a colon and a space,
then the cause. -/
def wrapErr (msg e : String) : String := msg ++ ": " ++ e

/-- First element of a list whose projected name equals the target, mirroring
the range loops of ensureVPCUnique, ensureFIPUnique, ensureSubnetUnique,
ensureInstanceUnique, getImageID, getNetworkID and getSubnetAddrPrefix:
each loop returns the first element whose (dereferenced) name field is equal,
under Go string equality, to the name sought. -/
def firstWithName {α : Type} (f : α → String) : List α → String → Option α
  | [], _ => none
  | x :: xs, n => if f x = n then some x else firstWithName f xs n

/-- Reads a maximal run of decimal digits, returning its value, the number of
digits read and the remaining characters. Helper for the strconv.ParseFloat
model. -/
def readDec : List Char → Nat × Nat × List Char
  | [] => (0, 0, [])
  | c :: cs =>
    if c.isDigit then
      match readDec cs with
      | (v, k, rest) => ((c.toNat - 48) * 10 ^ k + v, k + 1, rest)
    else (0, 0, c :: cs)

/-- Exact decimal value carried by a parsed floating-point literal: the pair
`(m, k)` denotes the rational m / 10 ^ k. Kept unreduced so that equalities
over parse results stay kernel-decidable. -/
abbrev DecValue : Type := Int × Nat

/-- Applies a trailing decimal exponent to a mantissa; helper for the
strconv.ParseFloat model. -/
def parseExpDec (m : DecValue) (cs : List Char) : Option DecValue :=
  let (epos, cs1) :=
    match cs with
    | '+' :: r => (true, r)
    | '-' :: r => (false, r)
    | _ => (true, cs)
  match readDec cs1 with
  | (ev, ek, cs2) =>
    if ek = 0 ∨ cs2 ≠ [] then none
    else if epos then some (m.1 * (10 : Int) ^ ev, m.2) else some (m.1, m.2 + ev)

/-- Modelled from the Go standard library contract of strconv.ParseFloat with
bitSize 64, restricted to finite decimal literals (no hex, infinity or NaN
forms), with exact decimal-value semantics; the claims evaluate it only at
values that are exactly representable in float64 or at strings that fail to
parse. -/
def parseFloat64 (s : String) : Option DecValue :=
  let cs := s.data
  let (neg, cs1) :=
    match cs with
    | '+' :: r => (false, r)
    | '-' :: r => (true, r)
    | _ => (false, cs)
  match readDec cs1 with
  | (ip, ik, cs2) =>
    let (fp, fk, cs3) :=
      match cs2 with
      | '.' :: r => readDec r
      | _ => ((0 : Nat), (0 : Nat), cs2)
    if ik = 0 ∧ fk = 0 then none
    else
      let mag : Int := (ip * 10 ^ fk + fp : Nat)
      let mant : DecValue := (if neg then -mag else mag, fk)
      match cs3 with
      | [] => some mant
      | 'e' :: r => parseExpDec mant r
      | 'E' :: r => parseExpDec mant r
      | _ => none

/-- Rational denotation of a parsed decimal value. -/
def DecValue.toQ (v : DecValue) : ℚ := (v.1 : ℚ) / 10 ^ v.2

/-- Composition giving the rational value of a parsed floating-point string,
the semantics of strconv.ParseFloat on the decimal inputs the claims use. -/
def parseFloatQ (s : String) : Option ℚ := (parseFloat64 s).map DecValue.toQ

/-- Standard base64 alphabet, for the encoding/base64 StdEncoding model. -/
def base64Alphabet : List Char :=
  "ABCDEFGHIJKLMNOPQRSTUVWXYZabcdefghijklmnopqrstuvwxyz0123456789+/".data

/-- Character of the base64 alphabet at a 6-bit index. -/
def b64Char (n : Nat) : Char := base64Alphabet.getD (n % 64) '='

/-- Modelled from the Go standard library contract of
base64.StdEncoding.EncodeToString, over bytes represented as naturals. -/
def base64Encode : List Nat → List Char
  | [] => []
  | [b1] => [b64Char (b1 / 4), b64Char (b1 % 4 * 16), '=', '=']
  | [b1, b2] => [b64Char (b1 / 4), b64Char (b1 % 4 * 16 + b2 / 16), b64Char (b2 % 16 * 4), '=']
  | b1 :: b2 :: b3 :: rest =>
    b64Char (b1 / 4) :: b64Char (b1 % 4 * 16 + b2 / 16) ::
      b64Char (b2 % 16 * 4 + b3 / 64) :: b64Char (b3 % 64) :: base64Encode rest

/-- Lookup of a key in secret data, mirroring the Go map index
`secret.Data["value"]` with its ok flag. -/
def lookupKey (k : String) : List (String × List Nat) → Option (List Nat)
  | [] => none
  | (k2, v) :: rest => if k2 = k then some v else lookupKey k rest

/-- Fields of vpcv1.VPC the scope code reads: Name, ID and
DefaultSecurityGroup.ID. -/
structure CloudVPC where
  name : String
  id : String
  defaultSecurityGroupID : String
deriving DecidableEq

/-- Fields of vpcv1.FloatingIP the scope code reads. -/
structure CloudFIP where
  name : String
  id : String
deriving DecidableEq

/-- Fields of vpcv1.Subnet the scope code reads. -/
structure CloudSubnet where
  name : String
  id : String
deriving DecidableEq

/-- Fields of vpcv1.AddressPrefix the scope code reads: Zone.Name and CIDR. -/
structure AddrPrefixEntry where
  zoneName : String
  cidr : String
deriving DecidableEq

/-- Fields of vpcv1.PublicGateway the scope code reads. -/
structure CloudPGW where
  id : String
deriving DecidableEq

/-- Fields of models.ImageReference the scope code reads. -/
structure CloudImage where
  name : String
  imageID : String
deriving DecidableEq

/-- Fields of models.NetworkReference the scope code reads. -/
structure CloudNetwork where
  name : String
  networkID : String
deriving DecidableEq

/-- Fields of models.PVMInstanceReference the scope code reads. -/
structure PVMInstanceRef where
  serverName : String
  pvmInstanceID : String
deriving DecidableEq

/-- Remote calls issued through the SDK clients, recorded in issue order. -/
inductive Call : Type
  | listVpcs
  | createVPC (name resourceGroup : String)
  | createSecurityGroupRule (sgID : String)
  | listFloatingIps
  | createFloatingIP (name resourceGroup zone : String)
  | deleteFloatingIP (id : String)
  | listSubnets
  | listVPCAddressPrefixes (vpcID : String)
  | createSubnet (cidr name vpcID zone : String)
  | createPublicGateway (vpcID zone : String)
  | setSubnetPublicGateway (subnetID pgwID : String)
  | getSubnetPublicGateway (subnetID : String)
  | unsetSubnetPublicGateway (subnetID : String)
  | deletePublicGateway (pgwID : String)
  | deleteSubnet (subnetID : String)
  | deleteVPC (id : String)
  | instancesGetAll (serviceInstanceID : String)
  | k8sGetSecret (ns name : String)
  | imagesGetAll
  | networksGetAll
  | instanceCreate (serverName imageID networkID : String) (memory processors : DecValue)
      (userData : String)
deriving DecidableEq

/-- Responses of the IBM VPC SDK client (vpcv1), one field per operation the
cluster scope invokes. Operations whose result the code consumes only after
an error check follow the SDK contract of returning exactly one of a value or
an error (`Except`); operations whose result pointer the code tests
independently of the error are Go-style pairs (`GoRes`); operations whose
result value the code discards carry only the possibly nil error. -/
structure VPCCloud where
  listVpcs : Except String (List CloudVPC)
  createVPC : String → String → Except String CloudVPC
  createSecurityGroupRule : String → Option String
  listFloatingIps : Except String (List CloudFIP)
  createFloatingIP : String → String → String → GoRes CloudFIP
  deleteFloatingIP : String → Option String
  listSubnets : Except String (List CloudSubnet)
  listVPCAddressPrefixes : String → Except String (List AddrPrefixEntry)
  createSubnet : String → String → String → String → GoRes CloudSubnet
  createPublicGateway : String → String → GoRes CloudPGW
  setSubnetPublicGateway : String → String → GoRes CloudPGW
  getSubnetPublicGateway : String → GoRes CloudPGW
  unsetSubnetPublicGateway : String → Option String
  deletePublicGateway : String → Option String
  deleteSubnet : String → Option String
  deleteVPC : String → Option String

/-- Fields of IBMVPCCluster.Spec the cluster scope reads. -/
structure VPCClusterSpecL where
  vpc : String
  resourceGroup : String
  zone : String
deriving DecidableEq

/-- Fields of IBMVPCCluster.Status the cluster scope reads. Status.VPC.ID is
a plain string in the Go type; Status.Subnet.ID and Status.APIEndpoint.FIPID
are string pointers, dereferenced by the teardown code. -/
structure VPCClusterStatusL where
  vpcID : String
  subnetID : Option String
  fipID : Option String
deriving DecidableEq

/-- The IBMVPCCluster object as seen by the cluster scope: object name, spec
and status. -/
structure IBMVPCClusterL where
  name : String
  spec : VPCClusterSpecL
  status : VPCClusterStatusL
deriving DecidableEq

/-- Translation of ClusterScope.ensureVPCUnique: list all VPCs and return the
first whose name equals vpcName, or a nil pair when none matches. -/
def ensureVPCUnique (c : VPCCloud) (vpcName : String) : GoRes CloudVPC × List Call :=
  match c.listVpcs with
  | .error e => ((none, some e), [Call.listVpcs])
  | .ok vpcs => ((firstWithName CloudVPC.name vpcs vpcName, none), [Call.listVpcs])

/-- Translation of ClusterScope.updateDefaultSG: create the open-inbound-all
rule on the given security group and return the SDK error, if any. -/
def updateDefaultSG (c : VPCCloud) (sgID : String) : Option String × List Call :=
  (c.createSecurityGroupRule sgID, [Call.createSecurityGroupRule sgID])

/-- Translation of ClusterScope.CreateVPC: adopt an existing same-named VPC if
the by-name scan finds one, otherwise create the VPC and apply the default
security-group rule, failing without a VPC reference when either create
sub-step fails. -/
def CreateVPC (c : VPCCloud) (cl : IBMVPCClusterL) : GoRes CloudVPC × List Call :=
  match ensureVPCUnique c cl.spec.vpc with
  | ((_, some e), t) => ((none, some e), t)
  | ((some vpcReply, none), t) => ((some vpcReply, none), t)
  | ((none, none), t) =>
    match c.createVPC cl.spec.vpc cl.spec.resourceGroup with
    | .error e => ((none, some e), t ++ [Call.createVPC cl.spec.vpc cl.spec.resourceGroup])
    | .ok vpc =>
      match updateDefaultSG c vpc.defaultSecurityGroupID with
      | (some e, t2) =>
        ((none, some e), t ++ [Call.createVPC cl.spec.vpc cl.spec.resourceGroup] ++ t2)
      | (none, t2) =>
        ((some vpc, none), t ++ [Call.createVPC cl.spec.vpc cl.spec.resourceGroup] ++ t2)

/-- Translation of ClusterScope.ensureFIPUnique: list all floating IPs and
return the first whose name equals fipName, or a nil pair when none
matches. -/
def ensureFIPUnique (c : VPCCloud) (fipName : String) : GoRes CloudFIP × List Call :=
  match c.listFloatingIps with
  | .error e => ((none, some e), [Call.listFloatingIps])
  | .ok fips => ((firstWithName CloudFIP.name fips fipName, none), [Call.listFloatingIps])

/-- Translation of ClusterScope.DeleteFloatingIP. The Go code dereferences
the pointer Status.APIEndpoint.FIPID before the non-empty check; a nil
pointer therefore faults (`none`) before any guard runs. Otherwise an empty
identifier short-circuits to success and a non-empty identifier is deleted
remotely. -/
def DeleteFloatingIP (c : VPCCloud) (cl : IBMVPCClusterL) :
    Option (Option String × List Call) :=
  match cl.status.fipID with
  | none => none
  | some fipID =>
    if fipID ≠ "" then
      some (c.deleteFloatingIP fipID, [Call.deleteFloatingIP fipID])
    else
      some (none, [])

/-- Translation of ClusterScope.ensureSubnetUnique: list all subnets and
return the first whose name equals subnetName, or a nil pair when none
matches. -/
def ensureSubnetUnique (c : VPCCloud) (subnetName : String) : GoRes CloudSubnet × List Call :=
  match c.listSubnets with
  | .error e => ((none, some e), [Call.listSubnets])
  | .ok subnets => ((firstWithName CloudSubnet.name subnets subnetName, none), [Call.listSubnets])

/-- Translation of ClusterScope.getSubnetAddrPrefix: list the VPC's address
prefixes and return the CIDR of the first entry for the requested zone, or
the not-found error when no entry matches. -/
def getSubnetAddrPrefixCIDR (c : VPCCloud) (vpcID zone : String) :
    Except String String × List Call :=
  match c.listVPCAddressPrefixes vpcID with
  | .error e => (.error e, [Call.listVPCAddressPrefixes vpcID])
  | .ok addrs =>
    match firstWithName AddrPrefixEntry.zoneName addrs zone with
    | some p => (.ok p.cidr, [Call.listVPCAddressPrefixes vpcID])
    | none =>
      (.error ("not found a valid CIDR for VPC " ++ vpcID ++ " in zone " ++ zone),
        [Call.listVPCAddressPrefixes vpcID])

/-- Translation of ClusterScope.createPublicGateWay: forward to the SDK. -/
def createPublicGateWay (c : VPCCloud) (vpcID zoneName : String) :
    GoRes CloudPGW × List Call :=
  (c.createPublicGateway vpcID zoneName, [Call.createPublicGateway vpcID zoneName])

/-- Translation of ClusterScope.attachPublicGateWay: forward to the SDK. -/
def attachPublicGateWay (c : VPCCloud) (subnetID pgwID : String) :
    GoRes CloudPGW × List Call :=
  (c.setSubnetPublicGateway subnetID pgwID, [Call.setSubnetPublicGateway subnetID pgwID])

/-- Translation of ClusterScope.CreateSubnet: adopt an existing same-named
subnet if found; otherwise look up the zone CIDR, create the subnet, and if a
non-nil subnet came back create a public gateway (propagating its error
alongside the subnet) and attach it when one was returned (propagating an
attach error with a nil subnet). -/
def CreateSubnet (c : VPCCloud) (cl : IBMVPCClusterL) : GoRes CloudSubnet × List Call :=
  let subnetName := cl.name ++ "-subnet"
  match ensureSubnetUnique c subnetName with
  | ((_, some e), t) => ((none, some e), t)
  | ((some subnetReply, none), t) => ((some subnetReply, none), t)
  | ((none, none), t) =>
    match getSubnetAddrPrefixCIDR c cl.status.vpcID cl.spec.zone with
    | (.error e, t1) => ((none, some e), t ++ t1)
    | (.ok cidrBlock, t1) =>
      let tc := t ++ t1 ++ [Call.createSubnet cidrBlock subnetName cl.status.vpcID cl.spec.zone]
      match c.createSubnet cidrBlock subnetName cl.status.vpcID cl.spec.zone with
      | (some subnet, errS) =>
        (match createPublicGateWay c cl.status.vpcID cl.spec.zone with
         | ((_, some e), tg) => ((some subnet, some e), tc ++ tg)
         | ((some pgw, none), tg) =>
           (match attachPublicGateWay c subnet.id pgw.id with
            | ((_, some e), ta) => ((none, some e), tc ++ tg ++ ta)
            | ((_, none), ta) => ((some subnet, errS), tc ++ tg ++ ta))
         | ((none, none), tg) => ((some subnet, errS), tc ++ tg))
      | (none, errS) => ((none, errS), tc)

/-- Translation of ClusterScope.detachPublicGateway: unset the subnet's
public gateway, then delete the gateway, wrapping each failure with the
sub-step it came from. -/
def detachPublicGateway (c : VPCCloud) (subnetID pgwID : String) :
    Option String × List Call :=
  match c.unsetSubnetPublicGateway subnetID with
  | some e =>
    (some (wrapErr ("Error when unsetting publicgateway for subnet " ++ subnetID) e),
      [Call.unsetSubnetPublicGateway subnetID])
  | none =>
    match c.deletePublicGateway pgwID with
    | some e =>
      (some (wrapErr ("Error when deleting publicgateway for subnet " ++ subnetID) e),
        [Call.unsetSubnetPublicGateway subnetID, Call.deletePublicGateway pgwID])
    | none => (none, [Call.unsetSubnetPublicGateway subnetID, Call.deletePublicGateway pgwID])

/-- Translation of ClusterScope.DeleteSubnet. The Go code dereferences the
pointer Status.Subnet.ID first (`none` models the fault on a nil pointer),
queries the subnet's public gateway, detaches and deletes it when one was
found without error, then deletes the subnet, wrapping each failure. -/
def DeleteSubnet (c : VPCCloud) (cl : IBMVPCClusterL) :
    Option (Option String × List Call) :=
  match cl.status.subnetID with
  | none => none
  | some subnetID =>
    let t0 := [Call.getSubnetPublicGateway subnetID]
    match c.getSubnetPublicGateway subnetID with
    | (some pgw, none) =>
      (match detachPublicGateway c subnetID pgw.id with
       | (some e, td) =>
         some (some (wrapErr ("Error when detaching publicgateway for subnet " ++ subnetID) e),
           t0 ++ td)
       | (none, td) =>
         (match c.deleteSubnet subnetID with
          | some e =>
            some (some (wrapErr "Error when deleting subnet " e),
              t0 ++ td ++ [Call.deleteSubnet subnetID])
          | none => some (none, t0 ++ td ++ [Call.deleteSubnet subnetID])))
    | _ =>
      match c.deleteSubnet subnetID with
      | some e =>
        some (some (wrapErr "Error when deleting subnet " e), t0 ++ [Call.deleteSubnet subnetID])
      | none => some (none, t0 ++ [Call.deleteSubnet subnetID])

/-- Translation of ClusterScope.DeleteVPC: delete by the recorded VPC
identifier. -/
def DeleteVPC (c : VPCCloud) (cl : IBMVPCClusterL) : Option String × List Call :=
  (c.deleteVPC cl.status.vpcID, [Call.deleteVPC cl.status.vpcID])

/-- Responses of the Power VS clients and the Kubernetes secret reader, one
field per operation the machine scope invokes. GetAll listings follow the
exactly-one-of contract; the networks listing is a Go-style pair because the
code tests the payload pointer independently of the error; the instance
create response value is discarded by the code, so only its possibly nil
error is kept. -/
structure PowerVSCloud where
  instancesGetAll : Except String (List PVMInstanceRef)
  instanceCreate : Option String
  imagesGetAll : Except String (List CloudImage)
  pcloudNetworksGetall : GoRes (List CloudNetwork)
  getSecret : String → String → Except String (List (String × List Nat))

/-- Translation of v1alpha4.IBMPowerVSResourceReference: an optional direct
identifier and an optional name. -/
structure IBMPowerVSResourceReference where
  id : Option String
  name : Option String
deriving DecidableEq

/-- Fields of IBMPowerVSMachine.Spec the machine scope reads. -/
structure PowerVSMachineSpecL where
  serviceInstanceID : String
  sshKey : String
  image : IBMPowerVSResourceReference
  network : IBMPowerVSResourceReference
  memory : String
  processors : String
  procType : String
  sysType : String
deriving DecidableEq

/-- Fields of the owning clusterv1.Machine the machine scope reads: its
namespace, name and bootstrap data-secret name pointer. -/
structure MachineL where
  nspace : String
  name : String
  dataSecretName : Option String
deriving DecidableEq

/-- The IBMPowerVSMachine object as seen by the machine scope: object name
and spec. -/
structure PowerVSMachineL where
  name : String
  spec : PowerVSMachineSpecL
deriving DecidableEq

/-- The PowerVSMachineScope fields the translated operations read. -/
structure PowerVSMachineScope where
  machine : MachineL
  powerVSMachine : PowerVSMachineL
deriving DecidableEq

/-- Translation of PowerVSMachineScope.ensureInstanceUnique: list all
instances of the service instance and return the first whose server name
equals instanceName, or a nil pair when none matches. -/
def ensureInstanceUnique (c : PowerVSCloud) (m : PowerVSMachineScope)
    (instanceName : String) : GoRes PVMInstanceRef × List Call :=
  match c.instancesGetAll with
  | .error e =>
    ((none, some e), [Call.instancesGetAll m.powerVSMachine.spec.serviceInstanceID])
  | .ok instances =>
    ((firstWithName PVMInstanceRef.serverName instances instanceName, none),
      [Call.instancesGetAll m.powerVSMachine.spec.serviceInstanceID])

/-- Translation of PowerVSMachineScope.GetBootstrapData: fail when the
linked Machine has no bootstrap data-secret name, fetch the secret, fail when
its value key is missing, and otherwise return the base64-encoded value. -/
def GetBootstrapData (c : PowerVSCloud) (m : PowerVSMachineScope) :
    Except String String × List Call :=
  match m.machine.dataSecretName with
  | none =>
    (.error "error retrieving bootstrap data: linked Machine's bootstrap.dataSecretName is nil",
      [])
  | some secretName =>
    match c.getSecret m.machine.nspace secretName with
    | .error e =>
      (.error (wrapErr ("failed to retrieve bootstrap data secret for IBMVPCMachine " ++
          m.machine.nspace ++ "/" ++ m.machine.name) e),
        [Call.k8sGetSecret m.machine.nspace secretName])
    | .ok data =>
      match lookupKey "value" data with
      | none =>
        (.error "error retrieving bootstrap data: secret value key is missing",
          [Call.k8sGetSecret m.machine.nspace secretName])
      | some value =>
        (.ok (String.mk (base64Encode value)), [Call.k8sGetSecret m.machine.nspace secretName])

/-- Translation of PowerVSMachineScope.GetImages: forward the image catalog
listing. -/
def GetImages (c : PowerVSCloud) : Except String (List CloudImage) × List Call :=
  (c.imagesGetAll, [Call.imagesGetAll])

/-- Translation of getImageID: a non-nil direct ID is returned without any
remote call; otherwise a non-nil name triggers the catalog scan, returning
the first exact match's ID or the not-found error; with both nil the
configuration error is returned. -/
def getImageID (image : IBMPowerVSResourceReference) (c : PowerVSCloud) :
    Except String String × List Call :=
  match image.id with
  | some i => (.ok i, [])
  | none =>
    match image.name with
    | some nm =>
      (match GetImages c with
       | (.error e, t) => (.error e, t)
       | (.ok images, t) =>
         (match firstWithName CloudImage.name images nm with
          | some img => (.ok img.imageID, t)
          | none => (.error "failed to find an image ID", t)))
    | none => (.error "both ID and Name can't be nil", [])

/-- Translation of PowerVSMachineScope.GetNetworks: the session call's
payload and error; when the error is non-nil or the payload nil, a nil
payload is returned with the error. -/
def GetNetworks (c : PowerVSCloud) : GoRes (List CloudNetwork) × List Call :=
  let (payload, e) := c.pcloudNetworksGetall
  if e ≠ none ∨ payload = none then ((none, e), [Call.networksGetAll])
  else ((payload, none), [Call.networksGetAll])

/-- Translation of getNetworkID: a non-nil direct ID is returned without any
remote call; otherwise a non-nil name triggers the networks scan, returning
the first exact match's ID or the not-found error; with both nil the
configuration error is returned. A nil payload with nil error from
GetNetworks makes the Go code dereference a nil pointer when ranging, which
the model reports as `none`. -/
def getNetworkID (network : IBMPowerVSResourceReference) (c : PowerVSCloud) :
    Option (Except String String × List Call) :=
  match network.id with
  | some i => some (.ok i, [])
  | none =>
    match network.name with
    | some nm =>
      (match GetNetworks c with
       | ((_, some e), t) => some (.error e, t)
       | ((none, none), _) => none
       | ((some networks, none), t) =>
         (match firstWithName CloudNetwork.name networks nm with
          | some nw => some (.ok nw.networkID, t)
          | none => some (.error "failed to find a network ID", t)))
    | none => some (.error "both ID and Name can't be nil", [])

/-- Translation of PowerVSMachineScope.CreateMachine: adopt an existing
same-named instance when the by-name scan finds one; otherwise fetch the
bootstrap data, parse the memory and processor counts, resolve the image and
network identifiers, and issue the create call, discarding its response and
returning a nil reference with a nil error on success. `none` models the
nil-pointer fault propagated from getNetworkID. -/
def CreateMachine (c : PowerVSCloud) (m : PowerVSMachineScope) :
    Option (GoRes PVMInstanceRef × List Call) :=
  let s := m.powerVSMachine.spec
  match ensureInstanceUnique c m m.powerVSMachine.name with
  | ((_, some e), t) => some ((none, some e), t)
  | ((some instanceReply, none), t) => some ((some instanceReply, none), t)
  | ((none, none), t) =>
    match GetBootstrapData c m with
    | (.error e, t1) => some ((none, some e), t ++ t1)
    | (.ok cloudInitData, t1) =>
      match parseFloat64 s.memory with
      | none =>
        some ((none, some ("failed to convert memory(" ++ s.memory ++ ") to float64")), t ++ t1)
      | some memory =>
        match parseFloat64 s.processors with
        | none =>
          some ((none, some ("failed to convert Processors(" ++ s.processors ++ ") to float64")),
            t ++ t1)
        | some cores =>
          match getImageID s.image c with
          | (.error e, t2) =>
            some ((none, some ("error getting image ID: " ++ e)), t ++ t1 ++ t2)
          | (.ok imageID, t2) =>
            match getNetworkID s.network c with
            | none => none
            | some (.error e, t3) =>
              some ((none, some ("error getting network ID: " ++ e)), t ++ t1 ++ t2 ++ t3)
            | some (.ok networkID, t3) =>
              let createCall := Call.instanceCreate m.powerVSMachine.name imageID networkID
                memory cores cloudInitData
              match c.instanceCreate with
              | some e => some ((none, some e), t ++ t1 ++ t2 ++ t3 ++ [createCall])
              | none => some ((none, none), t ++ t1 ++ t2 ++ t3 ++ [createCall])

/-- A by-name scan returns the first element of the listing whose projected
name matches, skipping earlier non-matching elements and ignoring later
elements entirely, matches included. -/
theorem firstWithName_append_cons {α : Type} (f : α → String) (l1 l2 : List α)
    (v : α) (n : String) (hv : f v = n) (h1 : ∀ u ∈ l1, f u ≠ n) :
    firstWithName f (l1 ++ v :: l2) n = some v := by
  induction l1 with
  | nil => simp [firstWithName, hv]
  | cons a as ih =>
    have ha : f a ≠ n := h1 a (List.mem_cons_self a as)
    simpa [firstWithName, if_neg ha] using ih fun u hu => h1 u (List.mem_cons_of_mem a hu)

/-- A by-name scan over a listing with no matching name returns absent. -/
theorem firstWithName_none {α : Type} (f : α → String) (l : List α) (n : String)
    (h : ∀ u ∈ l, f u ≠ n) : firstWithName f l n = none := by
  induction l with
  | nil => rfl
  | cons a as ih =>
    have ha : f a ≠ n := h a (List.mem_cons_self a as)
    simpa [firstWithName, if_neg ha] using ih fun u hu => h u (List.mem_cons_of_mem a hu)

/-- C8: for every by-name existence scan (ensureVPCUnique, ensureFIPUnique),
the scan returns the first resource in listing order whose name matches the
target exactly under Go's case-sensitive string equality — first match wins
even when a later remote resource shares the name — and returns absent (nil
result with nil error), not an error, when no name matches. -/
theorem c8_first_match_wins (c : VPCCloud) (n : String) :
    (∀ l1 v l2, c.listVpcs = Except.ok (l1 ++ v :: l2) → v.name = n →
        (∀ u ∈ l1, u.name ≠ n) →
        ensureVPCUnique c n = ((some v, none), [Call.listVpcs])) ∧
    (∀ l, c.listVpcs = Except.ok l → (∀ u ∈ l, u.name ≠ n) →
        ensureVPCUnique c n = ((none, none), [Call.listVpcs])) ∧
    (∀ l1 v l2, c.listFloatingIps = Except.ok (l1 ++ v :: l2) → v.name = n →
        (∀ u ∈ l1, u.name ≠ n) →
        ensureFIPUnique c n = ((some v, none), [Call.listFloatingIps])) ∧
    (∀ l, c.listFloatingIps = Except.ok l → (∀ u ∈ l, u.name ≠ n) →
        ensureFIPUnique c n = ((none, none), [Call.listFloatingIps])) := by
  refine ⟨?_, ?_, ?_, ?_⟩
  · intro l1 v l2 hl hv h1
    simp [ensureVPCUnique, hl, firstWithName_append_cons CloudVPC.name l1 l2 v n hv h1]
  · intro l hl h
    simp [ensureVPCUnique, hl, firstWithName_none CloudVPC.name l n h]
  · intro l1 v l2 hl hv h1
    simp [ensureFIPUnique, hl, firstWithName_append_cons CloudFIP.name l1 l2 v n hv h1]
  · intro l hl h
    simp [ensureFIPUnique, hl, firstWithName_none CloudFIP.name l n h]

/-- Neutral stub responses for the VPC client, overridden per scenario by
the concrete clouds below. -/
def stubVPCCloud : VPCCloud where
  listVpcs := .error "unused"
  createVPC := fun _ _ => .error "unused"
  createSecurityGroupRule := fun _ => none
  listFloatingIps := .error "unused"
  createFloatingIP := fun _ _ _ => (none, some "unused")
  deleteFloatingIP := fun _ => none
  listSubnets := .error "unused"
  listVPCAddressPrefixes := fun _ => .error "unused"
  createSubnet := fun _ _ _ _ => (none, some "unused")
  createPublicGateway := fun _ _ => (none, some "unused")
  setSubnetPublicGateway := fun _ _ => (none, some "unused")
  getSubnetPublicGateway := fun _ => (none, some "unused")
  unsetSubnetPublicGateway := fun _ => none
  deletePublicGateway := fun _ => none
  deleteSubnet := fun _ => none
  deleteVPC := fun _ => none

/-- Cloud responses exercising the C8 scans on a listing with a duplicated
name and on a scan with no match. -/
def c8Cloud : VPCCloud :=
  { stubVPCCloud with
    listVpcs := .ok [⟨"other", "vpc-o", "sg-o"⟩, ⟨"demo", "vpc-a", "sg-a"⟩, ⟨"demo", "vpc-b", "sg-b"⟩]
    listFloatingIps := .ok [⟨"fip-1", "r-1"⟩] }

/-- Witness for C8: on a listing holding two VPCs named demo, the scan
returns the first of them; a floating-IP scan with no match is absent. -/
theorem c8_first_match_wins_witness :
    ensureVPCUnique c8Cloud "demo" = ((some ⟨"demo", "vpc-a", "sg-a"⟩, none), [Call.listVpcs]) ∧
    ensureFIPUnique c8Cloud "absent" = ((none, none), [Call.listFloatingIps]) :=
  ⟨(c8_first_match_wins c8Cloud "demo").1 [⟨"other", "vpc-o", "sg-o"⟩]
      ⟨"demo", "vpc-a", "sg-a"⟩ [⟨"demo", "vpc-b", "sg-b"⟩] rfl rfl (by decide),
   (c8_first_match_wins c8Cloud "absent").2.2.2 [⟨"fip-1", "r-1"⟩] rfl (by decide)⟩

/-- C1: a create operation whose target has no recorded identifier
(CreateVPC, CreateMachine) adopts a same-named resource already present in
the remote listing, returning its reference with no error and issuing only
the listing call, never a create call; when no such name is listed the
create path issues exactly one remote create, so a second invocation that
lists the first invocation's resource creates nothing further. -/
theorem c1_idempotent_create (cv : VPCCloud) (cl : IBMVPCClusterL)
    (pc : PowerVSCloud) (m : PowerVSMachineScope) :
    (∀ l1 v l2, cv.listVpcs = Except.ok (l1 ++ v :: l2) → v.name = cl.spec.vpc →
        (∀ u ∈ l1, u.name ≠ cl.spec.vpc) →
        CreateVPC cv cl = ((some v, none), [Call.listVpcs])) ∧
    (∀ k1 r k2, pc.instancesGetAll = Except.ok (k1 ++ r :: k2) →
        r.serverName = m.powerVSMachine.name →
        (∀ u ∈ k1, u.serverName ≠ m.powerVSMachine.name) →
        CreateMachine pc m = some ((some r, none),
          [Call.instancesGetAll m.powerVSMachine.spec.serviceInstanceID])) ∧
    (∀ l vpc, cv.listVpcs = Except.ok l → (∀ u ∈ l, u.name ≠ cl.spec.vpc) →
        cv.createVPC cl.spec.vpc cl.spec.resourceGroup = Except.ok vpc →
        cv.createSecurityGroupRule vpc.defaultSecurityGroupID = none →
        CreateVPC cv cl = ((some vpc, none),
          [Call.listVpcs, Call.createVPC cl.spec.vpc cl.spec.resourceGroup,
           Call.createSecurityGroupRule vpc.defaultSecurityGroupID])) := by
  refine ⟨?_, ?_, ?_⟩
  · intro l1 v l2 hl hv h1
    simp [CreateVPC, ensureVPCUnique, hl,
      firstWithName_append_cons CloudVPC.name l1 l2 v cl.spec.vpc hv h1]
  · intro k1 r k2 hl hv h1
    simp [CreateMachine, ensureInstanceUnique, hl,
      firstWithName_append_cons PVMInstanceRef.serverName k1 k2 r m.powerVSMachine.name hv h1]
  · intro l vpc hl hmiss hc hsg
    simp [CreateVPC, ensureVPCUnique, hl, firstWithName_none CloudVPC.name l cl.spec.vpc hmiss,
      hc, updateDefaultSG, hsg]

/-- Cluster and machine inputs for the C1 witness. -/
def c1Cluster : IBMVPCClusterL := ⟨"demo", ⟨"demo-vpc", "rg-1", "z1"⟩, ⟨"", none, none⟩⟩

/-- Cloud responses for the C1 witness: the VPC listing already holds the
target name, the instance listing already holds the machine name. -/
def c1VPCCloud : VPCCloud :=
  { stubVPCCloud with
    listVpcs := .ok [⟨"demo-vpc", "vpc-1", "sg-1"⟩] }

/-- Power VS responses for the C1 witness. -/
def c1PowerVSCloud : PowerVSCloud where
  instancesGetAll := .ok [⟨"demo-m", "ins-1"⟩]
  instanceCreate := some "unused"
  imagesGetAll := .error "unused"
  pcloudNetworksGetall := (none, some "unused")
  getSecret := fun _ _ => .error "unused"

/-- Machine scope for the C1 witness. -/
def c1Scope : PowerVSMachineScope :=
  ⟨⟨"ns", "demo-m", some "boot"⟩,
   ⟨"demo-m", ⟨"sid", "key", ⟨none, none⟩, ⟨none, none⟩, "8", "0.25", "shared", "s922"⟩⟩⟩

/-- Witness for C1: both adoptions happen at concrete inputs, with only the
listing call issued. -/
theorem c1_idempotent_create_witness :
    CreateVPC c1VPCCloud c1Cluster = ((some ⟨"demo-vpc", "vpc-1", "sg-1"⟩, none), [Call.listVpcs]) ∧
    CreateMachine c1PowerVSCloud c1Scope =
      some ((some ⟨"demo-m", "ins-1"⟩, none), [Call.instancesGetAll "sid"]) :=
  ⟨(c1_idempotent_create c1VPCCloud c1Cluster c1PowerVSCloud c1Scope).1 []
      ⟨"demo-vpc", "vpc-1", "sg-1"⟩ [] rfl rfl (by decide),
   (c1_idempotent_create c1VPCCloud c1Cluster c1PowerVSCloud c1Scope).2.1 []
      ⟨"demo-m", "ins-1"⟩ [] rfl rfl (by decide)⟩

/-- C5: when CreateVPC creates a new network, the default security-group
rule is applied as a sub-step of that creation — the rule call follows the
create call in the issued trace — and a failure of the rule sub-step makes
CreateVPC return an error with no network reference. -/
theorem c5_default_sg_gates_vpc (c : VPCCloud) (cl : IBMVPCClusterL)
    (l : List CloudVPC) (vpc : CloudVPC)
    (hl : c.listVpcs = Except.ok l) (hmiss : ∀ u ∈ l, u.name ≠ cl.spec.vpc)
    (hc : c.createVPC cl.spec.vpc cl.spec.resourceGroup = Except.ok vpc) :
    (∀ e, c.createSecurityGroupRule vpc.defaultSecurityGroupID = some e →
        CreateVPC c cl = ((none, some e),
          [Call.listVpcs, Call.createVPC cl.spec.vpc cl.spec.resourceGroup,
           Call.createSecurityGroupRule vpc.defaultSecurityGroupID])) ∧
    (c.createSecurityGroupRule vpc.defaultSecurityGroupID = none →
        CreateVPC c cl = ((some vpc, none),
          [Call.listVpcs, Call.createVPC cl.spec.vpc cl.spec.resourceGroup,
           Call.createSecurityGroupRule vpc.defaultSecurityGroupID])) := by
  constructor
  · intro e hsg
    simp [CreateVPC, ensureVPCUnique, hl, firstWithName_none CloudVPC.name l cl.spec.vpc hmiss,
      hc, updateDefaultSG, hsg]
  · intro hsg
    simp [CreateVPC, ensureVPCUnique, hl, firstWithName_none CloudVPC.name l cl.spec.vpc hmiss,
      hc, updateDefaultSG, hsg]

/-- Cloud responses for the C5 witness: empty listing, successful VPC create,
failing security-group rule. -/
def c5Cloud : VPCCloud :=
  { stubVPCCloud with
    listVpcs := .ok []
    createVPC := fun _ _ => .ok ⟨"demo-vpc", "vpc-1", "sg-1"⟩
    createSecurityGroupRule := fun _ => some "rule rejected" }

/-- Witness for C5: at concrete inputs the failing policy sub-step yields an
error and no VPC reference, after the create call. -/
theorem c5_default_sg_gates_vpc_witness :
    CreateVPC c5Cloud c1Cluster = ((none, some "rule rejected"),
      [Call.listVpcs, Call.createVPC "demo-vpc" "rg-1",
       Call.createSecurityGroupRule "sg-1"]) :=
  (c5_default_sg_gates_vpc c5Cloud c1Cluster [] ⟨"demo-vpc", "vpc-1", "sg-1"⟩
      rfl (by decide) rfl).1 "rule rejected" rfl

/-- C6: with a recorded floating-IP identifier equal to the empty string,
DeleteFloatingIP issues no remote call and returns success; with a non-empty
recorded identifier it issues exactly one delete call carrying that
identifier and returns the SDK's outcome. -/
theorem c6_delete_fip_empty_noop (c : VPCCloud) (cl : IBMVPCClusterL) :
    (cl.status.fipID = some "" → DeleteFloatingIP c cl = some (none, [])) ∧
    (∀ fid, cl.status.fipID = some fid → fid ≠ "" →
        DeleteFloatingIP c cl = some (c.deleteFloatingIP fid, [Call.deleteFloatingIP fid])) := by
  constructor
  · intro h
    simp [DeleteFloatingIP, h]
  · intro fid h hne
    simp [DeleteFloatingIP, h, hne]

/-- Cluster status variants for the DeleteFloatingIP witnesses. -/
def c6ClusterEmpty : IBMVPCClusterL := ⟨"demo", ⟨"demo-vpc", "rg-1", "z1"⟩, ⟨"vpc-1", none, some ""⟩⟩

/-- Cluster status recording a non-empty floating-IP identifier. -/
def c6ClusterFull : IBMVPCClusterL := ⟨"demo", ⟨"demo-vpc", "rg-1", "z1"⟩, ⟨"vpc-1", none, some "fip-7"⟩⟩

/-- Witness for C6: the empty identifier is a no-op success, the non-empty
identifier is deleted by exactly that identifier. -/
theorem c6_delete_fip_empty_noop_witness :
    DeleteFloatingIP stubVPCCloud c6ClusterEmpty = some (none, []) ∧
    DeleteFloatingIP stubVPCCloud c6ClusterFull = some (none, [Call.deleteFloatingIP "fip-7"]) :=
  ⟨(c6_delete_fip_empty_noop stubVPCCloud c6ClusterEmpty).1 rfl,
   (c6_delete_fip_empty_noop stubVPCCloud c6ClusterFull).2 "fip-7" rfl (by decide)⟩

/-- C9: DeleteFloatingIP dereferences the recorded floating-IP identifier
pointer before the non-empty guard, so a nil pointer faults for every cloud
before any remote call, and under the precondition that the pointer is
non-nil the operation always returns a result. -/
theorem c9_delete_fip_nil_deref (c : VPCCloud) (cl : IBMVPCClusterL) :
    (cl.status.fipID = none → DeleteFloatingIP c cl = none) ∧
    (∀ fid, cl.status.fipID = some fid → ∃ r, DeleteFloatingIP c cl = some r) := by
  constructor
  · intro h
    simp [DeleteFloatingIP, h]
  · intro fid h
    by_cases hne : fid = ""
    · exact ⟨(none, []), by simp [DeleteFloatingIP, h, hne]⟩
    · exact ⟨(c.deleteFloatingIP fid, [Call.deleteFloatingIP fid]),
        by simp [DeleteFloatingIP, h, hne]⟩

/-- Cluster status whose floating-IP identifier pointer is nil. -/
def c9ClusterNil : IBMVPCClusterL := ⟨"demo", ⟨"demo-vpc", "rg-1", "z1"⟩, ⟨"vpc-1", none, none⟩⟩

/-- Witness for C9: the nil pointer faults at a concrete input, and a
recorded identifier yields a result. -/
theorem c9_delete_fip_nil_deref_witness :
    DeleteFloatingIP stubVPCCloud c9ClusterNil = none ∧
    ∃ r, DeleteFloatingIP stubVPCCloud c6ClusterFull = some r :=
  ⟨(c9_delete_fip_nil_deref stubVPCCloud c9ClusterNil).1 rfl,
   (c9_delete_fip_nil_deref stubVPCCloud c6ClusterFull).2 "fip-7" rfl⟩

/-- C4: subnet teardown first queries for an attached public gateway; when
the lookup reports one with no error, it unsets the gateway from the subnet,
then deletes the gateway, then deletes the subnet, in that order — the
gateway delete call is issued only after the unset call succeeded, and the
subnet delete call only after a present gateway was unset and deleted; when
the lookup reports no gateway, teardown proceeds directly to subnet
deletion; and each sub-step's failure is wrapped with the sub-step that
failed. -/
theorem c4_delete_subnet_order (c : VPCCloud) (cl : IBMVPCClusterL) (sid : String)
    (hs : cl.status.subnetID = some sid) :
    (∀ eg, c.getSubnetPublicGateway sid = (none, eg) →
        DeleteSubnet c cl =
          some ((c.deleteSubnet sid).map (wrapErr "Error when deleting subnet "),
            [Call.getSubnetPublicGateway sid, Call.deleteSubnet sid])) ∧
    (∀ pgw e, c.getSubnetPublicGateway sid = (some pgw, none) →
        c.unsetSubnetPublicGateway sid = some e →
        DeleteSubnet c cl =
          some (some (wrapErr ("Error when detaching publicgateway for subnet " ++ sid)
              (wrapErr ("Error when unsetting publicgateway for subnet " ++ sid) e)),
            [Call.getSubnetPublicGateway sid, Call.unsetSubnetPublicGateway sid])) ∧
    (∀ pgw e, c.getSubnetPublicGateway sid = (some pgw, none) →
        c.unsetSubnetPublicGateway sid = none →
        c.deletePublicGateway pgw.id = some e →
        DeleteSubnet c cl =
          some (some (wrapErr ("Error when detaching publicgateway for subnet " ++ sid)
              (wrapErr ("Error when deleting publicgateway for subnet " ++ sid) e)),
            [Call.getSubnetPublicGateway sid, Call.unsetSubnetPublicGateway sid,
             Call.deletePublicGateway pgw.id])) ∧
    (∀ pgw, c.getSubnetPublicGateway sid = (some pgw, none) →
        c.unsetSubnetPublicGateway sid = none →
        c.deletePublicGateway pgw.id = none →
        DeleteSubnet c cl =
          some ((c.deleteSubnet sid).map (wrapErr "Error when deleting subnet "),
            [Call.getSubnetPublicGateway sid, Call.unsetSubnetPublicGateway sid,
             Call.deletePublicGateway pgw.id, Call.deleteSubnet sid])) := by
  refine ⟨?_, ?_, ?_, ?_⟩
  · intro eg hg
    cases hd : c.deleteSubnet sid <;>
      simp [DeleteSubnet, hs, hg, hd]
  · intro pgw e hg hu
    simp [DeleteSubnet, hs, hg, detachPublicGateway, hu]
  · intro pgw e hg hu hdp
    simp [DeleteSubnet, hs, hg, detachPublicGateway, hu, hdp]
  · intro pgw hg hu hdp
    cases hd : c.deleteSubnet sid <;>
      simp [DeleteSubnet, hs, hg, detachPublicGateway, hu, hdp, hd]

/-- Cluster status recording a subnet identifier, for the C4 witness. -/
def c4Cluster : IBMVPCClusterL := ⟨"demo", ⟨"demo-vpc", "rg-1", "z1"⟩, ⟨"vpc-1", some "sub-1", none⟩⟩

/-- Cloud responses for the C4 witness: a gateway is attached and every
delete step succeeds. -/
def c4CloudFull : VPCCloud :=
  { stubVPCCloud with getSubnetPublicGateway := fun _ => (some ⟨"pgw-1"⟩, none) }

/-- Cloud responses for the C4 witness case with no attached gateway. -/
def c4CloudNone : VPCCloud :=
  { stubVPCCloud with getSubnetPublicGateway := fun _ => (none, some "not found") }

/-- Witness for C4: with an attached gateway the full unset, delete-gateway,
delete-subnet order is issued; with no gateway found teardown skips to the
subnet delete call. -/
theorem c4_delete_subnet_order_witness :
    DeleteSubnet c4CloudFull c4Cluster = some (none,
      [Call.getSubnetPublicGateway "sub-1", Call.unsetSubnetPublicGateway "sub-1",
       Call.deletePublicGateway "pgw-1", Call.deleteSubnet "sub-1"]) ∧
    DeleteSubnet c4CloudNone c4Cluster = some (none,
      [Call.getSubnetPublicGateway "sub-1", Call.deleteSubnet "sub-1"]) :=
  ⟨(c4_delete_subnet_order c4CloudFull c4Cluster "sub-1" rfl).2.2.2
      ⟨"pgw-1"⟩ rfl rfl rfl,
   (c4_delete_subnet_order c4CloudNone c4Cluster "sub-1" rfl).1 (some "not found") rfl⟩

/-- Cloud responses for the C2 scenario: no same-named subnet listed, a zone
CIDR available, the subnet create succeeding, and the public-gateway create
failing. -/
def c2Cloud : VPCCloud :=
  { stubVPCCloud with
    listSubnets := .ok []
    listVPCAddressPrefixes := fun _ => .ok [⟨"z1", "10.0.0.0/24"⟩]
    createSubnet := fun _ _ _ _ => (some ⟨"demo-subnet", "sub-1"⟩, none)
    createPublicGateway := fun _ _ => (none, some "public gateway quota exceeded") }

/-- Cluster input for the C2 scenario. -/
def c2Cluster : IBMVPCClusterL := ⟨"demo", ⟨"demo-vpc", "rg-1", "z1"⟩, ⟨"vpc-1", none, none⟩⟩

/-- Counterexample to C2: at this concrete input the subnet itself is
created successfully (the create response carries the subnet and no error),
yet the failing public-gateway creation step makes CreateSubnet return a
non-nil error — the gateway failure is not absorbed. -/
theorem c2_counterexample :
    c2Cloud.createSubnet "10.0.0.0/24" "demo-subnet" "vpc-1" "z1" =
      (some ⟨"demo-subnet", "sub-1"⟩, none) ∧
    CreateSubnet c2Cloud c2Cluster =
      ((some ⟨"demo-subnet", "sub-1"⟩, some "public gateway quota exceeded"),
       [Call.listSubnets, Call.listVPCAddressPrefixes "vpc-1",
        Call.createSubnet "10.0.0.0/24" "demo-subnet" "vpc-1" "z1",
        Call.createPublicGateway "vpc-1" "z1"]) ∧
    (CreateSubnet c2Cloud c2Cluster).1.2 ≠ none := by decide

/-- C2 as amended: when the subnet create succeeds and the public-gateway
create fails, CreateSubnet returns the created subnet together with the
gateway error rather than suppressing it; the error is absent only when the
gateway step reports no gateway and no error (a missing gateway is not an
error) — and, for completeness, when a created gateway is attached without
error. -/
theorem c2_gateway_error_surfaces (c : VPCCloud) (cl : IBMVPCClusterL)
    (l : List CloudSubnet) (addrs : List AddrPrefixEntry) (p : AddrPrefixEntry)
    (subnet : CloudSubnet)
    (hl : c.listSubnets = Except.ok l)
    (hmiss : ∀ u ∈ l, u.name ≠ cl.name ++ "-subnet")
    (haddr : c.listVPCAddressPrefixes cl.status.vpcID = Except.ok addrs)
    (hz : firstWithName AddrPrefixEntry.zoneName addrs cl.spec.zone = some p)
    (hcs : c.createSubnet p.cidr (cl.name ++ "-subnet") cl.status.vpcID cl.spec.zone =
      (some subnet, none)) :
    (∀ pg e, c.createPublicGateway cl.status.vpcID cl.spec.zone = (pg, some e) →
        CreateSubnet c cl = ((some subnet, some e),
          [Call.listSubnets, Call.listVPCAddressPrefixes cl.status.vpcID,
           Call.createSubnet p.cidr (cl.name ++ "-subnet") cl.status.vpcID cl.spec.zone,
           Call.createPublicGateway cl.status.vpcID cl.spec.zone])) ∧
    (c.createPublicGateway cl.status.vpcID cl.spec.zone = (none, none) →
        CreateSubnet c cl = ((some subnet, none),
          [Call.listSubnets, Call.listVPCAddressPrefixes cl.status.vpcID,
           Call.createSubnet p.cidr (cl.name ++ "-subnet") cl.status.vpcID cl.spec.zone,
           Call.createPublicGateway cl.status.vpcID cl.spec.zone])) := by
  constructor
  · intro pg e hpg
    simp [CreateSubnet, ensureSubnetUnique, hl,
      firstWithName_none CloudSubnet.name l (cl.name ++ "-subnet") hmiss,
      getSubnetAddrPrefixCIDR, haddr, hz, hcs, createPublicGateWay, hpg]
  · intro hpg
    simp [CreateSubnet, ensureSubnetUnique, hl,
      firstWithName_none CloudSubnet.name l (cl.name ++ "-subnet") hmiss,
      getSubnetAddrPrefixCIDR, haddr, hz, hcs, createPublicGateWay, hpg]

/-- Witness for the amended C2, applying it at the counterexample input. -/
theorem c2_gateway_error_surfaces_witness :
    CreateSubnet c2Cloud c2Cluster =
      ((some ⟨"demo-subnet", "sub-1"⟩, some "public gateway quota exceeded"),
       [Call.listSubnets, Call.listVPCAddressPrefixes "vpc-1",
        Call.createSubnet "10.0.0.0/24" "demo-subnet" "vpc-1" "z1",
        Call.createPublicGateway "vpc-1" "z1"]) :=
  (c2_gateway_error_surfaces c2Cloud c2Cluster [] [⟨"z1", "10.0.0.0/24"⟩]
      ⟨"z1", "10.0.0.0/24"⟩ ⟨"demo-subnet", "sub-1"⟩ rfl (by decide) rfl rfl rfl).1
    none "public gateway quota exceeded" rfl

/-- C7: getImageID and getNetworkID return a supplied direct identifier
without issuing any remote call, whatever the name field holds; with only a
name supplied they perform the by-name scan, returning the first exact
match's identifier and failing with the not-found error when no exact match
exists; and with neither identifier nor name supplied they return the
terminal configuration error, again without any remote call. -/
theorem c7_resolution_precedence (c : PowerVSCloud) :
    (∀ i nm0, getImageID ⟨some i, nm0⟩ c = (Except.ok i, [])) ∧
    (∀ nm l1 v l2, c.imagesGetAll = Except.ok (l1 ++ v :: l2) → v.name = nm →
        (∀ u ∈ l1, u.name ≠ nm) →
        getImageID ⟨none, some nm⟩ c = (Except.ok v.imageID, [Call.imagesGetAll])) ∧
    (∀ nm imgs, c.imagesGetAll = Except.ok imgs → (∀ u ∈ imgs, u.name ≠ nm) →
        getImageID ⟨none, some nm⟩ c =
          (Except.error "failed to find an image ID", [Call.imagesGetAll])) ∧
    (getImageID ⟨none, none⟩ c = (Except.error "both ID and Name can't be nil", [])) ∧
    (∀ i nm0, getNetworkID ⟨some i, nm0⟩ c = some (Except.ok i, [])) ∧
    (∀ nm l1 v l2, c.pcloudNetworksGetall = (some (l1 ++ v :: l2), none) → v.name = nm →
        (∀ u ∈ l1, u.name ≠ nm) →
        getNetworkID ⟨none, some nm⟩ c = some (Except.ok v.networkID, [Call.networksGetAll])) ∧
    (∀ nm nets, c.pcloudNetworksGetall = (some nets, none) → (∀ u ∈ nets, u.name ≠ nm) →
        getNetworkID ⟨none, some nm⟩ c =
          some (Except.error "failed to find a network ID", [Call.networksGetAll])) ∧
    (getNetworkID ⟨none, none⟩ c = some (Except.error "both ID and Name can't be nil", [])) := by
  refine ⟨?_, ?_, ?_, ?_, ?_, ?_, ?_, ?_⟩
  · intro i nm0
    simp [getImageID]
  · intro nm l1 v l2 hl hv h1
    simp [getImageID, GetImages, hl,
      firstWithName_append_cons CloudImage.name l1 l2 v nm hv h1]
  · intro nm imgs hl hmiss
    simp [getImageID, GetImages, hl, firstWithName_none CloudImage.name imgs nm hmiss]
  · simp [getImageID]
  · intro i nm0
    simp [getNetworkID]
  · intro nm l1 v l2 hl hv h1
    simp [getNetworkID, GetNetworks, hl,
      firstWithName_append_cons CloudNetwork.name l1 l2 v nm hv h1]
  · intro nm nets hl hmiss
    simp [getNetworkID, GetNetworks, hl, firstWithName_none CloudNetwork.name nets nm hmiss]
  · simp [getNetworkID]

/-- Power VS responses for the C7 witness: one image and one network
listed. -/
def c7Cloud : PowerVSCloud where
  instancesGetAll := .error "unused"
  instanceCreate := some "unused"
  imagesGetAll := .ok [⟨"centos-image", "img-1"⟩]
  pcloudNetworksGetall := (some [⟨"net-a", "nw-1"⟩], none)
  getSecret := fun _ _ => .error "unused"

/-- Witness for C7: direct identifiers win without a scan, a by-name scan
resolves an exact match, a missing name fails, and the nil-nil reference is
the configuration error. -/
theorem c7_resolution_precedence_witness :
    getImageID ⟨some "img-9", some "ignored"⟩ c7Cloud = (Except.ok "img-9", []) ∧
    getImageID ⟨none, some "centos-image"⟩ c7Cloud = (Except.ok "img-1", [Call.imagesGetAll]) ∧
    getImageID ⟨none, some "missing"⟩ c7Cloud =
      (Except.error "failed to find an image ID", [Call.imagesGetAll]) ∧
    getNetworkID ⟨none, none⟩ c7Cloud =
      some (Except.error "both ID and Name can't be nil", []) :=
  ⟨(c7_resolution_precedence c7Cloud).1 "img-9" (some "ignored"),
   (c7_resolution_precedence c7Cloud).2.1 "centos-image" [] ⟨"centos-image", "img-1"⟩ []
      rfl rfl (by decide),
   (c7_resolution_precedence c7Cloud).2.2.1 "missing" [⟨"centos-image", "img-1"⟩]
      rfl (by decide),
   (c7_resolution_precedence c7Cloud).2.2.2.2.2.2.2⟩

/-- Power VS responses for the C3 scenario: empty instance listing and a
bootstrap secret carrying a value. -/
def c3Cloud : PowerVSCloud where
  instancesGetAll := .ok []
  instanceCreate := some "unused"
  imagesGetAll := .error "unused"
  pcloudNetworksGetall := (none, some "unused")
  getSecret := fun _ _ => .ok [("value", [104, 105])]

/-- Machine scope for the C3 scenario, whose memory field does not parse. -/
def c3Scope : PowerVSMachineScope :=
  ⟨⟨"ns", "demo-m", some "boot"⟩,
   ⟨"demo-m", ⟨"sid", "key", ⟨none, none⟩, ⟨none, none⟩, "abc", "0.25", "shared", "s922"⟩⟩⟩

/-- Counterexample to C3: at this concrete input the unparseable memory
field does produce the configuration error, but only after the by-name
existence scan and the bootstrap-secret fetch — the issued call trace is
non-empty when the error is returned, so the error is not returned before
any remote call is made. -/
theorem c3_counterexample :
    CreateMachine c3Cloud c3Scope =
      some ((none, some "failed to convert memory(abc) to float64"),
        [Call.instancesGetAll "sid", Call.k8sGetSecret "ns" "boot"]) ∧
    (CreateMachine c3Cloud c3Scope).map (fun p => p.2) ≠ some [] := by decide

/-- C3 as amended: an unparseable memory or processor field is a terminal
configuration error and no remote instance-create call is ever issued for
it, although the by-name existence scan and the bootstrap fetch have already
run by then; and Memory 8 with Processors 0.25 parse to the rational values
8 and 1/4, the exact values of the float64 results 8.0 and 0.25. -/
theorem c3_parse_failure_is_config_error (pc : PowerVSCloud) (m : PowerVSMachineScope)
    (l : List PVMInstanceRef) (sn : String) (data : List (String × List Nat)) (v : List Nat)
    (hl : pc.instancesGetAll = Except.ok l)
    (hmiss : ∀ u ∈ l, u.serverName ≠ m.powerVSMachine.name)
    (hsn : m.machine.dataSecretName = some sn)
    (hsec : pc.getSecret m.machine.nspace sn = Except.ok data)
    (hval : lookupKey "value" data = some v) :
    (parseFloat64 m.powerVSMachine.spec.memory = none →
        CreateMachine pc m = some
          ((none, some ("failed to convert memory(" ++ m.powerVSMachine.spec.memory ++
              ") to float64")),
           [Call.instancesGetAll m.powerVSMachine.spec.serviceInstanceID,
            Call.k8sGetSecret m.machine.nspace sn])) ∧
    (∀ mv, parseFloat64 m.powerVSMachine.spec.memory = some mv →
        parseFloat64 m.powerVSMachine.spec.processors = none →
        CreateMachine pc m = some
          ((none, some ("failed to convert Processors(" ++ m.powerVSMachine.spec.processors ++
              ") to float64")),
           [Call.instancesGetAll m.powerVSMachine.spec.serviceInstanceID,
            Call.k8sGetSecret m.machine.nspace sn])) ∧
    (parseFloatQ "8" = some 8 ∧ parseFloatQ "0.25" = some (1 / 4)) := by
  refine ⟨?_, ?_, ?_, ?_⟩
  · intro hpm
    simp [CreateMachine, ensureInstanceUnique, hl,
      firstWithName_none PVMInstanceRef.serverName l m.powerVSMachine.name hmiss,
      GetBootstrapData, hsn, hsec, hval, hpm]
  · intro mv hpm hpp
    simp [CreateMachine, ensureInstanceUnique, hl,
      firstWithName_none PVMInstanceRef.serverName l m.powerVSMachine.name hmiss,
      GetBootstrapData, hsn, hsec, hval, hpm, hpp]
  · have h1 : parseFloat64 "8" = some (8, 0) := by decide
    rw [parseFloatQ, h1]
    norm_num [DecValue.toQ]
  · have h2 : parseFloat64 "0.25" = some (25, 2) := by decide
    rw [parseFloatQ, h2]
    norm_num [DecValue.toQ]

/-- Witness for the amended C3, applied at the counterexample input. -/
theorem c3_parse_failure_is_config_error_witness :
    CreateMachine c3Cloud c3Scope =
      some ((none, some "failed to convert memory(abc) to float64"),
        [Call.instancesGetAll "sid", Call.k8sGetSecret "ns" "boot"]) :=
  (c3_parse_failure_is_config_error c3Cloud c3Scope [] "boot" [("value", [104, 105])]
      [104, 105] rfl (by decide) rfl rfl rfl).1 (by decide)

/-- C10: when no instance with the target name pre-exists and every
subsequent step, the remote create included, succeeds, CreateMachine
discards the create response and returns a nil instance reference with a
nil error; and whenever CreateMachine returns a non-nil reference, that
reference is the first same-named instance of the listing — the
pre-existing-instance path — returned with no error after only the listing
call. -/
theorem c10_create_machine_nil_on_success (pc : PowerVSCloud) (m : PowerVSMachineScope) :
    (∀ l sn data v mv pv imageID networkID t2 t3,
        pc.instancesGetAll = Except.ok l →
        (∀ u ∈ l, u.serverName ≠ m.powerVSMachine.name) →
        m.machine.dataSecretName = some sn →
        pc.getSecret m.machine.nspace sn = Except.ok data →
        lookupKey "value" data = some v →
        parseFloat64 m.powerVSMachine.spec.memory = some mv →
        parseFloat64 m.powerVSMachine.spec.processors = some pv →
        getImageID m.powerVSMachine.spec.image pc = (Except.ok imageID, t2) →
        getNetworkID m.powerVSMachine.spec.network pc = some (Except.ok networkID, t3) →
        pc.instanceCreate = none →
        CreateMachine pc m = some ((none, none),
          [Call.instancesGetAll m.powerVSMachine.spec.serviceInstanceID,
           Call.k8sGetSecret m.machine.nspace sn] ++ t2 ++ t3 ++
          [Call.instanceCreate m.powerVSMachine.name imageID networkID mv pv
            (String.mk (base64Encode v))])) ∧
    (∀ r e t, CreateMachine pc m = some ((some r, e), t) →
        ∃ l, pc.instancesGetAll = Except.ok l ∧
          firstWithName PVMInstanceRef.serverName l m.powerVSMachine.name = some r ∧
          e = none ∧
          t = [Call.instancesGetAll m.powerVSMachine.spec.serviceInstanceID]) := by
  constructor
  · intro l sn data v mv pv imageID networkID t2 t3 hl hmiss hsn hsec hval hm hp him hnet hcr
    simp [CreateMachine, ensureInstanceUnique, hl,
      firstWithName_none PVMInstanceRef.serverName l m.powerVSMachine.name hmiss,
      GetBootstrapData, hsn, hsec, hval, hm, hp, him, hnet, hcr]
  · intro r e t h
    cases hI : pc.instancesGetAll with
    | error e2 => simp [CreateMachine, ensureInstanceUnique, hI] at h
    | ok l =>
      cases hF : firstWithName PVMInstanceRef.serverName l m.powerVSMachine.name with
      | some ir =>
        simp [CreateMachine, ensureInstanceUnique, hI, hF] at h
        exact ⟨l, rfl, by rw [hF, h.1.1], h.1.2.symm, h.2.symm⟩
      | none =>
        exfalso
        rcases hB : GetBootstrapData pc m with ⟨bres, bt⟩
        cases bres with
        | error eb => simp [CreateMachine, ensureInstanceUnique, hI, hF, hB] at h
        | ok d =>
          cases hm : parseFloat64 m.powerVSMachine.spec.memory with
          | none => simp [CreateMachine, ensureInstanceUnique, hI, hF, hB, hm] at h
          | some mv =>
            cases hp : parseFloat64 m.powerVSMachine.spec.processors with
            | none => simp [CreateMachine, ensureInstanceUnique, hI, hF, hB, hm, hp] at h
            | some pv =>
              rcases hIm : getImageID m.powerVSMachine.spec.image pc with ⟨ires, it⟩
              cases ires with
              | error ei =>
                simp [CreateMachine, ensureInstanceUnique, hI, hF, hB, hm, hp, hIm] at h
              | ok imageID =>
                cases hN : getNetworkID m.powerVSMachine.spec.network pc with
                | none =>
                  simp [CreateMachine, ensureInstanceUnique, hI, hF, hB, hm, hp, hIm, hN] at h
                | some nresp =>
                  rcases nresp with ⟨nres, nt⟩
                  cases nres with
                  | error en =>
                    simp [CreateMachine, ensureInstanceUnique, hI, hF, hB, hm, hp, hIm, hN] at h
                  | ok networkID =>
                    cases hC : pc.instanceCreate with
                    | some ec =>
                      simp [CreateMachine, ensureInstanceUnique, hI, hF, hB, hm, hp, hIm, hN,
                        hC] at h
                    | none =>
                      simp [CreateMachine, ensureInstanceUnique, hI, hF, hB, hm, hp, hIm, hN,
                        hC] at h

/-- Power VS responses for the C10 witness: empty instance listing, image
and network resolvable by name, bootstrap secret present, create succeeding. -/
def c10Cloud : PowerVSCloud where
  instancesGetAll := .ok []
  instanceCreate := none
  imagesGetAll := .ok [⟨"centos-image", "img-1"⟩]
  pcloudNetworksGetall := (some [⟨"net-a", "nw-1"⟩], none)
  getSecret := fun _ _ => .ok [("value", [104, 105])]

/-- Machine scope for the C10 witness, resolving image and network by name. -/
def c10Scope : PowerVSMachineScope :=
  ⟨⟨"ns", "demo-m", some "boot"⟩,
   ⟨"demo-m", ⟨"sid", "key", ⟨none, some "centos-image"⟩, ⟨none, some "net-a"⟩,
     "8", "0.25", "shared", "s922"⟩⟩⟩

/-- C10 witness responses with a pre-existing same-named instance. -/
def c10AdoptCloud : PowerVSCloud :=
  { c10Cloud with instancesGetAll := .ok [⟨"demo-m", "ins-1"⟩] }

/-- Witness for C10: the fully successful create path returns a nil
reference and nil error after the create call, and a non-nil reference at a
concrete input comes from the listing's first same-named instance. -/
theorem c10_create_machine_nil_on_success_witness :
    CreateMachine c10Cloud c10Scope = some ((none, none),
      [Call.instancesGetAll "sid", Call.k8sGetSecret "ns" "boot", Call.imagesGetAll,
       Call.networksGetAll,
       Call.instanceCreate "demo-m" "img-1" "nw-1" (8, 0) (25, 2) "aGk="]) ∧
    (∃ l, c10AdoptCloud.instancesGetAll = Except.ok l ∧
      firstWithName PVMInstanceRef.serverName l "demo-m" = some ⟨"demo-m", "ins-1"⟩ ∧
      (none : Option String) = none ∧
      [Call.instancesGetAll "sid"] = [Call.instancesGetAll "sid"]) :=
  ⟨(c10_create_machine_nil_on_success c10Cloud c10Scope).1 [] "boot"
      [("value", [104, 105])] [104, 105] (8, 0) (25, 2) "img-1" "nw-1"
      [Call.imagesGetAll] [Call.networksGetAll] rfl (by decide) rfl rfl rfl
      (by decide) (by decide) rfl rfl rfl,
   (c10_create_machine_nil_on_success c10AdoptCloud c10Scope).2 ⟨"demo-m", "ins-1"⟩
      none [Call.instancesGetAll "sid"] (by decide)⟩
